import Mathlib

/-!
Verification of the RSA SSA PKCS1 signer (`RsaSsaPkcs1SignBoringSsl`) from
`src/cc/subtle/rsa_ssa_pkcs1_sign_boringssl.cc`, as a shallow embedding.

The orchestration code of `New` and `Sign` is embedded directly from the
source file.  The helpers it calls (`SubtleUtilBoringSSL` and the BoringSSL
primitives) live outside `src/`; those are modelled from the spec, each with
a doc comment saying so.  Bytes are `Nat` values, byte strings are
`List Nat`, big integers are `Nat`.
-/

set_option exponentiation.threshold 5000
set_option maxRecDepth 4000

deriving instance DecidableEq for Except

namespace TinkSubtle

/-- Big-endian byte string to natural number, the reading direction of
BN_bin2bn. -/
def bytesToNat (bs : List Nat) : Nat :=
  bs.foldl (fun acc b => acc * 256 + b) 0

/-- Big-endian encoding of `n` into exactly `len` bytes (zero padded on the
left, truncated to the low `8*len` bits like any fixed-width store). -/
def natToBytesPad : Nat → Nat → List Nat
  | 0, _ => []
  | l + 1, n => natToBytesPad l (n / 256) ++ [n % 256]

/-- Number of base-256 digits of `n`, with explicit fuel (first argument);
the fuel is consumed one digit at a time, so any fuel of at least the digit
count gives the digit count. -/
def numBytesAux : Nat → Nat → Nat
  | 0, _ => 0
  | f + 1, n => if n = 0 then 0 else numBytesAux f (n / 256) + 1

/-- Number of base-256 digits of `n` (0 for 0). -/
def numBytes (n : Nat) : Nat := numBytesAux n n

/-- Bit length of a value, with explicit fuel; used only on single bytes. -/
def numBitsAux : Nat → Nat → Nat
  | 0, _ => 0
  | f + 1, n => if n = 0 then 0 else numBitsAux f (n / 2) + 1

/-- Modelled from the spec: BN_num_bits of the primitives library, the bit
length of a big integer (0 for 0).  Computed from the byte length and the
bit length of the leading byte so that it evaluates on 2048-bit inputs. -/
def BN_num_bits (n : Nat) : Nat :=
  if n = 0 then 0
  else 8 * (numBytes n - 1) + numBitsAux 8 (n / 256 ^ (numBytes n - 1))

/-- Modular exponentiation by repeated squaring, eight exponent bits per
step, with explicit fuel. -/
def powModAux : Nat → Nat → Nat → Nat → Nat
  | 0, _, _, m => 1 % m
  | f + 1, b, e, m =>
    if e = 0 then 1 % m
    else
      let r := powModAux f (b ^ 256 % m) (e / 256) m
      r * (b ^ (e % 256) % m) % m

/-- Modelled from the spec: the modular exponentiation `b ^ e mod m` of the
primitives library (see `powMod_eq`). -/
def powMod (b e m : Nat) : Nat := powModAux (numBytes e) b e m

/-- Hash algorithm selectors, from the HashType enum used by the source. -/
inductive HashType where
  | UNKNOWN_HASH
  | SHA1
  | SHA224
  | SHA256
  | SHA384
  | SHA512
deriving DecidableEq, Repr

/-- Signing parameters of `RsaSsaPkcs1SignBoringSsl::New`: the selected
hash algorithm (struct RsaSsaPkcs1Params). -/
structure RsaSsaPkcs1Params where
  hashType : HashType
deriving DecidableEq, Repr

/-- Raw RSA private key material (struct RsaPrivateKey): each component a
big-endian byte string.  `crt` is the CRT coefficient (the inverse of `q`
modulo `p`). -/
structure RsaPrivateKey where
  n : List Nat
  e : List Nat
  d : List Nat
  p : List Nat
  q : List Nat
  dp : List Nat
  dq : List Nat
  crt : List Nat
deriving DecidableEq, Repr

/-- The reconstructed internal RSA key object (the RSA object of the
primitives library), components as big integers. -/
structure RsaKey where
  n : Nat
  e : Nat
  d : Nat
  p : Nat
  q : Nat
  dp : Nat
  dq : Nat
  qInv : Nat
deriving DecidableEq, Repr

/-- The empty key returned by RSA_new (allocation success is assumed by the
model; an allocation failure has no observable data to reason about). -/
def rsaNew : RsaKey := ⟨0, 0, 0, 0, 0, 0, 0, 0⟩

/-- Error codes of util::Status used by the source file. -/
inductive ErrorCode where
  | INVALID_ARGUMENT
  | INTERNAL
deriving DecidableEq, Repr

/-- util::Status: an error code together with a message. -/
structure Status where
  code : ErrorCode
  message : String
deriving DecidableEq, Repr

/-- Modelled from the spec: the policy-approved hash set for signatures
excludes weak digests; SHA-256, SHA-384 and SHA-512 are approved. -/
def approvedHash : HashType → Bool
  | .SHA256 => true
  | .SHA384 => true
  | .SHA512 => true
  | _ => false

/-- The status returned for a hash selector outside the approved set
(the UnsupportedHash error of the spec). -/
def unsupportedHashStatus : Status :=
  ⟨.INVALID_ARGUMENT, "Unsupported hash type for digital signatures"⟩

/-- Modelled from the spec: SubtleUtilBoringSSL::ValidateSignatureHash,
which rejects every hash selector outside the policy-approved set. -/
def ValidateSignatureHash (hashType : HashType) : Except Status Unit :=
  if approvedHash hashType then .ok () else .error unsupportedHashStatus

/-- An opaque handle to a resolved hash function (the EVP_MD of the
primitives library), identified by its numeric algorithm id. -/
structure EvpMd where
  nid : Nat
deriving DecidableEq, Repr

/-- Modelled from the spec: SubtleUtilBoringSSL::EvpHash resolves a hash
selector to the handle of the hash implementation. -/
def EvpHash (hashType : HashType) : Except Status EvpMd :=
  match hashType with
  | .SHA1 => .ok ⟨64⟩
  | .SHA256 => .ok ⟨672⟩
  | .SHA384 => .ok ⟨673⟩
  | .SHA512 => .ok ⟨674⟩
  | _ => .error ⟨.INVALID_ARGUMENT, "Unsupported hash type"⟩

/-- Modelled from the spec: the digest length in bytes of each resolved
hash algorithm id. -/
def mdSize (nid : Nat) : Nat :=
  if nid = 64 then 20
  else if nid = 672 then 32
  else if nid = 673 then 48
  else if nid = 674 then 64
  else 0

/-- Modelled from the spec: the hash implementations themselves are out of
scope (external primitives library); modelled as an unspecified
deterministic function returning a digest of the correct length. -/
def modelDigest (nid : Nat) (data : List Nat) : List Nat :=
  List.replicate (mdSize nid) ((data.foldl (fun a b => a + b) nid) % 256)

/-- Modelled from the spec: boringssl::ComputeHash hashes a byte string
with the resolved hash function. -/
def ComputeHash (data : List Nat) (md : EvpMd) : Except Status (List Nat) :=
  .ok (modelDigest md.nid data)

/-- Modelled from the spec: SubtleUtilBoringSSL::str2bn parses a big-endian
byte string into a big integer; every byte string denotes a number, so the
parse itself always succeeds. -/
def str2bn (s : List Nat) : Except Status Nat :=
  .ok (bytesToNat s)

/-- The status returned for a modulus below the policy minimum (the
ModulusTooSmall error of the spec). -/
def modulusTooSmallStatus : Status :=
  ⟨.INVALID_ARGUMENT,
    "Modulus size is too small; only modulus size of at least 2048 bit is supported"⟩

/-- Modelled from the spec: SubtleUtilBoringSSL::ValidateRsaModulusSize,
which rejects any modulus bit length below the configured minimum of
2048 bits. -/
def ValidateRsaModulusSize (bits : Nat) : Except Status Unit :=
  if bits < 2048 then .error modulusTooSmallStatus else .ok ()

/-- Modelled from the spec: SubtleUtilBoringSSL::CopyKey populates the key
object with the modulus and the two exponents of the material. -/
def CopyKey (pk : RsaPrivateKey) (rsa : RsaKey) : Except Status RsaKey :=
  .ok { rsa with
        n := bytesToNat pk.n, e := bytesToNat pk.e, d := bytesToNat pk.d }

/-- Modelled from the spec: SubtleUtilBoringSSL::CopyPrimeFactors populates
the key object with the two prime factors of the material. -/
def CopyPrimeFactors (pk : RsaPrivateKey) (rsa : RsaKey) : Except Status RsaKey :=
  .ok { rsa with p := bytesToNat pk.p, q := bytesToNat pk.q }

/-- Modelled from the spec: SubtleUtilBoringSSL::CopyCrtParams populates
the key object with the CRT parameters of the material. -/
def CopyCrtParams (pk : RsaPrivateKey) (rsa : RsaKey) : Except Status RsaKey :=
  .ok { rsa with
        dp := bytesToNat pk.dp, dq := bytesToNat pk.dq,
        qInv := bytesToNat pk.crt }

/-- Modelled from the spec: RSA_check_key of the primitives library, the
arithmetic self-consistency check: `n = p * q`, the exponent relation
`e * d = 1 mod lcm(p - 1, q - 1)`, and CRT parameters consistent with the
prime factors. -/
def RSA_check_key (k : RsaKey) : Bool :=
  decide (1 < k.p) && decide (1 < k.q) && k.n == k.p * k.q
    && k.e * k.d % Nat.lcm (k.p - 1) (k.q - 1) == 1
    && k.dp == k.d % (k.p - 1) && k.dq == k.d % (k.q - 1)
    && k.qInv * k.q % k.p == 1

/-- Modelled from the spec: the text SubtleUtilBoringSSL::GetErrors obtains
by draining the thread error queue right after a failed key check.  The
check call runs RSA_check_key first and short-circuits, so the queue holds
the diagnostic of the first check that failed; the text is the diagnostic
of the primitives library, never the key bytes. -/
def GetErrors (k : RsaKey) : String :=
  if RSA_check_key k then "RSA routines: fips check failed"
  else "RSA routines: key check failed"

/-- The signer object: the reconstructed private key and the resolved hash
handle, the two member fields of RsaSsaPkcs1SignBoringSsl. -/
structure Signer where
  privateKey : RsaKey
  sigHash : EvpMd
deriving DecidableEq, Repr

/-- RsaSsaPkcs1SignBoringSsl::New from the source file: validate the hash,
resolve it, parse and size-check the modulus, build the key object, run the
two key checks, and only then construct the signer.  The hardened
(RSA_check_fips) profile lives in the primitives library and is modelled
from the spec as an arbitrary predicate, passed as the argument
`rsaCheckFips`. -/
def New (privateKey : RsaPrivateKey) (params : RsaSsaPkcs1Params)
    (rsaCheckFips : RsaKey → Bool) : Except Status Signer :=
  match ValidateSignatureHash params.hashType with
  | .error e => .error e
  | .ok _ =>
    match EvpHash params.hashType with
    | .error e => .error e
    | .ok sigHash =>
      match str2bn privateKey.n with
      | .error e => .error e
      | .ok nVal =>
        match ValidateRsaModulusSize (BN_num_bits nVal) with
        | .error e => .error e
        | .ok _ =>
          match CopyKey privateKey rsaNew with
          | .error e => .error e
          | .ok rsa1 =>
            match CopyPrimeFactors privateKey rsa1 with
            | .error e => .error e
            | .ok rsa2 =>
              match CopyCrtParams privateKey rsa2 with
              | .error e => .error e
              | .ok rsa =>
                if !(RSA_check_key rsa) || !(rsaCheckFips rsa) then
                  .error ⟨.INVALID_ARGUMENT,
                    "Could not load RSA key: " ++ GetErrors rsa⟩
                else
                  .ok ⟨rsa, sigHash⟩

/-- Modelled from the spec: the DER DigestInfo header bytes the PKCS1 v1.5
encoding prepends to the digest, per hash algorithm id. -/
def digestInfoBytes (nid : Nat) : List Nat :=
  if nid = 64 then
    [48, 33, 48, 9, 6, 5, 43, 14, 3, 2, 26, 5, 0, 4, 20]
  else if nid = 672 then
    [48, 49, 48, 13, 6, 9, 96, 134, 72, 1, 101, 3, 4, 2, 1, 5, 0, 4, 32]
  else if nid = 673 then
    [48, 65, 48, 13, 6, 9, 96, 134, 72, 1, 101, 3, 4, 2, 2, 5, 0, 4, 48]
  else if nid = 674 then
    [48, 81, 48, 13, 6, 9, 96, 134, 72, 1, 101, 3, 4, 2, 3, 5, 0, 4, 64]
  else []

/-- RSA_size of the primitives library: the byte length of the modulus,
which is also the length of every signature. -/
def RSA_size (k : RsaKey) : Nat := (BN_num_bits k.n + 7) / 8

/-- Modelled from the spec: the fixed PKCS1 v1.5 signature encoding
`00 01 FF .. FF 00 DigestInfo digest`, padded to `emLen` bytes. -/
def pkcs1Encode (nid : Nat) (digest : List Nat) (emLen : Nat) : List Nat :=
  0 :: 1 :: (List.replicate (emLen - (digestInfoBytes nid ++ digest).length - 3) 255
    ++ (0 :: (digestInfoBytes nid ++ digest)))

/-- Modelled from the spec: RSA_sign of the primitives library.  It checks
the digest length, builds the fixed PKCS1 v1.5 encoding of the modulus
byte length, and raises it to the private exponent modulo the modulus; it
fails when the encoding does not fit the modulus. -/
def RSA_sign (hashNid : Nat) (digest : List Nat) (rsa : RsaKey) :
    Option (List Nat) :=
  if digest.length ≠ mdSize hashNid then none
  else if RSA_size rsa < (digestInfoBytes hashNid ++ digest).length + 11 then none
  else some (natToBytesPad (RSA_size rsa)
    (powMod (bytesToNat (pkcs1Encode hashNid digest (RSA_size rsa))) rsa.d rsa.n))

/-- Modelled from the spec: SubtleUtilBoringSSL::EnsureNonNull replaces a
null string view by the empty string, so a null message is treated exactly
as the empty message. -/
def EnsureNonNull (data : Option (List Nat)) : List Nat :=
  match data with
  | none => []
  | some bs => bs

/-- RsaSsaPkcs1SignBoringSsl::Sign from the source file: normalise a null
input, hash the message, call RSA_sign, and on primitive failure drain the
library error queue (second component of the state pair) and return the
fixed internal error.  The error queue of the primitives library is
threaded explicitly as a list of diagnostic strings. -/
def Sign (signer : Signer) (data : Option (List Nat)) (errQueue : List String) :
    Except Status (List Nat) × List String :=
  let msg := EnsureNonNull data
  match ComputeHash msg signer.sigHash with
  | .error e => (.error e, errQueue)
  | .ok digest =>
    match RSA_sign signer.sigHash.nid digest signer.privateKey with
    | none => (.error ⟨.INTERNAL, "Signing failed."⟩, [])
    | some sig => (.ok sig, errQueue)

/-- The key object the three copy steps of `New` assemble from the
material: every component read back from its byte encoding. -/
def keyOfMaterial (pk : RsaPrivateKey) : RsaKey :=
  ⟨bytesToNat pk.n, bytesToNat pk.e, bytesToNat pk.d, bytesToNat pk.p,
   bytesToNat pk.q, bytesToNat pk.dp, bytesToNat pk.dq, bytesToNat pk.crt⟩

/-- A hardened-profile predicate that accepts every key, used to
instantiate the modelled RSA_check_fips argument in concrete runs. -/
def fipsAll : RsaKey → Bool := fun _ => true

def bigN : Nat := 2441803940765662917207254698755925365920577432266969345200099848330663386173516137257871636692899002401649963138224763114102562920988439959320848239425879901654147960359807613493065203236410513504996071598828023777222649669313553802056451153846510923154087175039092458721109846083472078115634886969082383344424370949760511143222453407590351173861254417767406335606848801455384672529626799679387249615893147232190114545842069005474638144253419725357620575138712676190322485056928855430330984162128418937493698970499547114066771649176210974924354781726538050165898868242863136122437589348987348332670807444561612417028650801988197188588535809

def bigE : Nat := 3

def bigD : Nat := 9055323526995905661849009522395111857356625646211630331656797798185420618361612324803594722138373728199052175302564922316692483695489953314103698895200419147923842332937593554521909429443120487177891440350815451008532290514753304368903524021468720253850506488213465990063256002712744082056098583624789105644976765965860368496110251

def bigP : Nat := 179769313486231590772930519078902473361797697894230657273430081157732675805500963132708477322407536021120113879871393357658789768814416622492847430639474124377767893424865485276302219601246094119453082952085005768838150682342462881473913110540827237163350510684586298239947245938479716304835356329624224137217

def bigQ : Nat := 13582985290493858492773514283592667786034938469317445497485196697278130927542418487205392083207560592298578262953847383475038725543234929971155548342800628721885763499406390331782864144164680730766837160526223176512798435772129956553355286032203080380775759732320198985094884004069116123084147875437183658467465148948790552744165377

def bigDp : Nat := 119846208990821060515287012719268315574531798596153771515620054105155117203667308755138984881605024014080075919914262238439193179209611081661898287092982749585178595616576990184201479734164062746302055301390003845892100454894975254315942073693884824775567007123057532159964830625653144203223570886416149424811

def bigDq : Nat := 9055323526995905661849009522395111857356625646211630331656797798185420618361612324803594722138373728199052175302564922316692483695489953314103698895200419147923842332937593554521909429443120487177891440350815451008532290514753304368903524021468720253850506488213465990063256002712744082056098583624789105644976765965860368496110251

def bigQInv : Nat := 95876967192482449224864591487502836178403145100356353788017972677107170516468011602716330969366609964641417662082799232023214124679359918812974146563871135836930928965242415903121906463927804975662928919559170610327131670982979149411187261625576422691947863246529066784652242239124524332104174149602929838217

/-- A fully consistent RSA key above the 2048-bit policy minimum:
`bigP * bigQ = bigN` (2125 bits), `bigE * bigD = 1 mod lcm(bigP - 1, bigQ - 1)`,
and the CRT parameters match. -/
def bigKey : RsaKey := ⟨bigN, bigE, bigD, bigP, bigQ, bigDp, bigDq, bigQInv⟩

/-- The byte-string material encoding `bigKey`. -/
def bigMaterial : RsaPrivateKey :=
  ⟨natToBytesPad 266 bigN, natToBytesPad 1 bigE, natToBytesPad 138 bigD,
   natToBytesPad 129 bigP, natToBytesPad 138 bigQ, natToBytesPad 128 bigDp,
   natToBytesPad 138 bigDq, natToBytesPad 128 bigQInv⟩

/-- The signer `New` builds from `bigMaterial` with SHA-256. -/
def bigSigner : Signer := ⟨bigKey, ⟨672⟩⟩

/-- Material with a 2048-bit modulus (`2 ^ 2047` in 256 bytes) whose other
components are inconsistent with it, so the key checks fail. -/
def badMaterial : RsaPrivateKey :=
  ⟨128 :: List.replicate 255 0, [3], [3], [0], [0], [0], [0], [0]⟩

/-- Material whose modulus is the single byte 7 (3 bits), far below the
2048-bit policy minimum. -/
def smallMaterial : RsaPrivateKey :=
  ⟨[7], [3], [3], [2], [3], [1], [1], [1]⟩

/-- A signer built directly (not through `New`) around a 497-bit modulus
with private exponent 1, small enough to evaluate `Sign` cheaply. -/
def smallSigner : Signer := ⟨⟨2 ^ 496, 3, 1, 0, 0, 0, 0, 0⟩, ⟨672⟩⟩

/-- The signature `Sign smallSigner` produces on the message `[104, 105]`:
with private exponent 1 the signature is the PKCS1 encoding itself. -/
def smallSigExample : List Nat :=
  0 :: 1 :: (List.replicate 9 255 ++ (0 :: (digestInfoBytes 672 ++ List.replicate 32 113)))

/-- A signer whose modulus is the single-digit 5, so the PKCS1 encoding can
never fit and the signing primitive always fails. -/
def tinySigner : Signer := ⟨⟨5, 3, 1, 0, 0, 0, 0, 0⟩, ⟨672⟩⟩

/-- Fixed-width encoding always has exactly the requested length. -/
theorem natToBytesPad_length (l : Nat) : ∀ n, (natToBytesPad l n).length = l := by
  induction l with
  | zero => intro n; rfl
  | succ l ih => intro n; simp [natToBytesPad, ih]

/-- With enough fuel, `powModAux` computes modular exponentiation. -/
theorem powModAux_eq (f : Nat) : ∀ b e m, 0 < m → e < 256 ^ f →
    powModAux f b e m = b ^ e % m := by
  induction f with
  | zero =>
    intro b e m _ he
    have he0 : e = 0 := by simpa using Nat.lt_one_iff.mp (by simpa using he)
    simp [powModAux, he0]
  | succ f ih =>
    intro b e m hm he
    by_cases h0 : e = 0
    · simp [powModAux, h0]
    · have hdiv : e / 256 < 256 ^ f := by
        apply Nat.div_lt_of_lt_mul
        rw [Nat.mul_comm, ← pow_succ]
        exact he
      simp only [powModAux, h0, if_false]
      rw [ih _ _ _ hm hdiv, ← Nat.pow_mod, ← Nat.mul_mod, ← pow_mul, ← pow_add]
      have hsplit : 256 * (e / 256) + e % 256 = e := by omega
      rw [hsplit]

/-- Any number is below `256` to the power of its digit count. -/
theorem lt_pow_numBytesAux (f : Nat) : ∀ n, n ≤ f → n < 256 ^ numBytesAux f n := by
  induction f with
  | zero =>
    intro n hn
    have : n = 0 := Nat.le_zero.mp hn
    simp [numBytesAux, this]
  | succ f ih =>
    intro n hn
    by_cases h0 : n = 0
    · simp [numBytesAux, h0]
    · have hle : n / 256 ≤ f := by omega
      have h2 := ih (n / 256) hle
      simp only [numBytesAux, h0, if_false]
      have h3 : n < 256 * (n / 256 + 1) := by omega
      calc n < 256 * (n / 256 + 1) := h3
        _ ≤ 256 * 256 ^ (numBytesAux f (n / 256)) := by
            exact Nat.mul_le_mul_left 256 (by omega)
        _ = 256 ^ (numBytesAux f (n / 256) + 1) := by rw [pow_succ, Nat.mul_comm]

/-- The modelled `powMod` is the mathematical modular exponentiation, so
RSA_sign indeed computes the PKCS1 encoding raised to the private exponent
modulo the modulus. -/
theorem powMod_eq (b e m : Nat) (hm : 0 < m) : powMod b e m = b ^ e % m :=
  powModAux_eq (numBytes e) b e m hm (lt_pow_numBytesAux e e Nat.le.refl)

/-- For an unapproved hash selector, `New` stops at the very first check. -/
theorem New_not_approved (pk : RsaPrivateKey) (ht : HashType) (fips : RsaKey → Bool)
    (hh : approvedHash ht = false) :
    New pk ⟨ht⟩ fips = .error unsupportedHashStatus := by
  unfold New ValidateSignatureHash
  rw [if_neg (by simp [hh])]

/-- Every approved hash selector resolves to a handle. -/
theorem EvpHash_of_approved (ht : HashType) (hh : approvedHash ht = true) :
    ∃ md, EvpHash ht = .ok md := by
  cases ht <;> simp_all [approvedHash, EvpHash]

/-- Characterization of `New` once the hash check has passed: the remaining
control flow is the size check, then the two key checks, then success. -/
theorem New_approved_eq (pk : RsaPrivateKey) (ht : HashType) (fips : RsaKey → Bool)
    (md : EvpMd) (hmd : EvpHash ht = .ok md) (hh : approvedHash ht = true) :
    New pk ⟨ht⟩ fips =
      if BN_num_bits (bytesToNat pk.n) < 2048 then .error modulusTooSmallStatus
      else if !(RSA_check_key (keyOfMaterial pk)) || !(fips (keyOfMaterial pk)) then
        .error ⟨.INVALID_ARGUMENT,
          "Could not load RSA key: " ++ GetErrors (keyOfMaterial pk)⟩
      else .ok ⟨keyOfMaterial pk, md⟩ := by
  unfold New ValidateSignatureHash
  rw [if_pos hh, hmd]
  simp only [str2bn, ValidateRsaModulusSize, CopyKey, CopyPrimeFactors, CopyCrtParams]
  by_cases hsz : BN_num_bits (bytesToNat pk.n) < 2048
  · rw [if_pos hsz, if_pos hsz]
  · rw [if_neg hsz, if_neg hsz]
    rfl

/-- C3: for every hash selector outside the policy-approved set, `New`
fails with the UnsupportedHash status no matter what the key material is;
and with an approved hash, a too-small modulus is reported even when the
key is also inconsistent.  Together with the parse step never failing
(`str2bn`), the checks run in the fixed order hash, encoding, size,
consistency, and the earliest failing check decides the error. -/
theorem new_error_precedence (pk : RsaPrivateKey) (ht : HashType) (fips : RsaKey → Bool) :
    (approvedHash ht = false → New pk ⟨ht⟩ fips = .error unsupportedHashStatus) ∧
    (approvedHash ht = true → BN_num_bits (bytesToNat pk.n) < 2048 →
      New pk ⟨ht⟩ fips = .error modulusTooSmallStatus) := by
  constructor
  · exact New_not_approved pk ht fips
  · intro hh hsz
    obtain ⟨md, hmd⟩ := EvpHash_of_approved ht hh
    rw [New_approved_eq pk ht fips md hmd hh, if_pos hsz]

/-- Witness for C3 at concrete inputs: an unapproved legacy hash is
rejected as unsupported, and with SHA-256 approved a 3-bit modulus is
rejected as too small. -/
theorem new_error_precedence_witness :
    (New smallMaterial ⟨.SHA1⟩ fipsAll = .error unsupportedHashStatus) ∧
    (New smallMaterial ⟨.SHA256⟩ fipsAll = .error modulusTooSmallStatus) :=
  ⟨(new_error_precedence smallMaterial .SHA1 fipsAll).1 (by decide),
   (new_error_precedence smallMaterial .SHA256 fipsAll).2 (by decide) (by decide)⟩

/-- C4: for every key material whose modulus bit length is below 2048 and
every approved hash, `New` fails with the ModulusTooSmall status, whatever
the rest of the key looks like. -/
theorem new_small_modulus_fails (pk : RsaPrivateKey) (ht : HashType) (fips : RsaKey → Bool)
    (h1 : approvedHash ht = true) (h2 : BN_num_bits (bytesToNat pk.n) < 2048) :
    New pk ⟨ht⟩ fips = .error modulusTooSmallStatus := by
  obtain ⟨md, hmd⟩ := EvpHash_of_approved ht h1
  rw [New_approved_eq pk ht fips md hmd h1, if_pos h2]

/-- Witness for C4: the 3-bit modulus material with SHA-384. -/
theorem new_small_modulus_fails_witness :
    New smallMaterial ⟨.SHA384⟩ fipsAll = .error modulusTooSmallStatus :=
  new_small_modulus_fails smallMaterial .SHA384 fipsAll (by decide) (by decide)

/-- C5: with an approved hash and a large-enough modulus, a key that fails
the arithmetic self-consistency check or the hardened profile check makes
`New` fail with the InvalidKey status. -/
theorem new_inconsistent_key_fails (pk : RsaPrivateKey) (ht : HashType) (fips : RsaKey → Bool)
    (h1 : approvedHash ht = true)
    (h2 : 2048 ≤ BN_num_bits (bytesToNat pk.n))
    (h3 : RSA_check_key (keyOfMaterial pk) = false ∨ fips (keyOfMaterial pk) = false) :
    New pk ⟨ht⟩ fips =
      .error ⟨.INVALID_ARGUMENT,
        "Could not load RSA key: " ++ GetErrors (keyOfMaterial pk)⟩ := by
  obtain ⟨md, hmd⟩ := EvpHash_of_approved ht h1
  rw [New_approved_eq pk ht fips md hmd h1, if_neg (Nat.not_lt.mpr h2)]
  rcases h3 with h3 | h3 <;> rw [if_pos (by simp [h3])]

/-- Witness for C5: a 2048-bit modulus whose prime factors are zero fails
the consistency check and is rejected as an invalid key. -/
theorem new_inconsistent_key_fails_witness :
    New badMaterial ⟨.SHA512⟩ fipsAll =
      .error ⟨.INVALID_ARGUMENT,
        "Could not load RSA key: " ++ GetErrors (keyOfMaterial badMaterial)⟩ :=
  new_inconsistent_key_fails badMaterial .SHA512 fipsAll (by decide) (by decide)
    (Or.inl (by decide))

/-- C1 counterexample: on a key failing the self-consistency check, the
error returned by `New` does contain the underlying-library diagnostic
text (the drained `GetErrors` output is concatenated into the message by
the source), contradicting the claim that the error carries no
underlying-library diagnostic string. -/
theorem new_error_message_contains_library_diag :
    New badMaterial ⟨.SHA256⟩ fipsAll =
      .error ⟨.INVALID_ARGUMENT,
        "Could not load RSA key: " ++ GetErrors (keyOfMaterial badMaterial)⟩ ∧
    GetErrors (keyOfMaterial badMaterial) = "RSA routines: key check failed" := by
  exact ⟨by decide, by decide⟩

/-- C1 (amended): every error message `New` returns is drawn from a fixed
finite set: the two validator texts and the fixed load-failure text
followed by the drained library diagnostic of the check that failed.  In
particular no key component bytes ever appear in an error message, though
the library diagnostic string itself is included on the key-check path. -/
theorem new_error_messages_fixed_set (pk : RsaPrivateKey) (params : RsaSsaPkcs1Params)
    (fips : RsaKey → Bool) (st : Status) (h : New pk params fips = .error st) :
    st.message = unsupportedHashStatus.message ∨
    st.message = modulusTooSmallStatus.message ∨
    st.message = "Could not load RSA key: RSA routines: key check failed" ∨
    st.message = "Could not load RSA key: RSA routines: fips check failed" := by
  obtain ⟨ht⟩ := params
  by_cases hh : approvedHash ht
  · obtain ⟨md, hmd⟩ := EvpHash_of_approved ht hh
    rw [New_approved_eq pk ht fips md hmd hh] at h
    by_cases hsz : BN_num_bits (bytesToNat pk.n) < 2048
    · rw [if_pos hsz] at h
      simp only [Except.error.injEq] at h
      right; left; rw [← h]
    · rw [if_neg hsz] at h
      by_cases hck : (!RSA_check_key (keyOfMaterial pk) || !fips (keyOfMaterial pk)) = true
      · rw [if_pos hck] at h
        simp only [Except.error.injEq] at h
        rw [← h]
        unfold GetErrors
        by_cases hk : RSA_check_key (keyOfMaterial pk) = true
        · rw [if_pos hk]
          right; right; right; rfl
        · rw [if_neg hk]
          right; right; left; rfl
      · rw [if_neg hck] at h
        exact absurd h (by simp)
  · rw [New_not_approved pk ht fips (by simp_all)] at h
    simp only [Except.error.injEq] at h
    left; rw [← h]

/-- Witness for the amended C1, at the concrete rejected key. -/
theorem new_error_messages_fixed_set_witness :
    (Status.mk .INVALID_ARGUMENT
        "Could not load RSA key: RSA routines: key check failed").message =
      unsupportedHashStatus.message ∨
    (Status.mk .INVALID_ARGUMENT
        "Could not load RSA key: RSA routines: key check failed").message =
      modulusTooSmallStatus.message ∨
    (Status.mk .INVALID_ARGUMENT
        "Could not load RSA key: RSA routines: key check failed").message =
      "Could not load RSA key: RSA routines: key check failed" ∨
    (Status.mk .INVALID_ARGUMENT
        "Could not load RSA key: RSA routines: key check failed").message =
      "Could not load RSA key: RSA routines: fips check failed" :=
  new_error_messages_fixed_set badMaterial ⟨.SHA256⟩ fipsAll
    ⟨.INVALID_ARGUMENT, "Could not load RSA key: RSA routines: key check failed"⟩
    (by decide)

/-- A successful run of the signing primitive always returns exactly the
modulus byte length. -/
theorem RSA_sign_some_length (nid : Nat) (dg : List Nat) (k : RsaKey) (s : List Nat)
    (h : RSA_sign nid dg k = some s) : s.length = RSA_size k := by
  unfold RSA_sign at h
  by_cases h1 : dg.length ≠ mdSize nid
  · rw [if_pos h1] at h
    exact absurd h (by simp)
  · rw [if_neg h1] at h
    by_cases h2 : RSA_size k < (digestInfoBytes nid ++ dg).length + 11
    · rw [if_pos h2] at h
      exact absurd h (by simp)
    · rw [if_neg h2] at h
      simp only [Option.some.injEq] at h
      rw [← h]
      exact natToBytesPad_length _ _

/-- C2: whenever `Sign` succeeds, the signature byte string has length
exactly the byte length of the modulus, `(BN_num_bits n + 7) / 8`. -/
theorem sign_ok_length (signer : Signer) (data : Option (List Nat)) (q q2 : List String)
    (sig : List Nat) (h : Sign signer data q = (.ok sig, q2)) :
    sig.length = (BN_num_bits signer.privateKey.n + 7) / 8 := by
  show sig.length = RSA_size signer.privateKey
  simp only [Sign, ComputeHash] at h
  cases hr : RSA_sign signer.sigHash.nid
      (modelDigest signer.sigHash.nid (EnsureNonNull data)) signer.privateKey with
  | none => rw [hr] at h; simp at h
  | some s =>
    rw [hr] at h
    simp only [Prod.mk.injEq, Except.ok.injEq] at h
    rw [← h.1]
    exact RSA_sign_some_length _ _ _ _ hr

/-- Witness for C2: the small signer on a two-byte message produces
exactly the 63-byte signature of its 497-bit modulus. -/
theorem sign_ok_length_witness :
    smallSigExample.length = (BN_num_bits smallSigner.privateKey.n + 7) / 8 :=
  sign_ok_length smallSigner (some [104, 105]) [] [] smallSigExample (by decide)

/-- C6: `Sign` is deterministic; two calls on the same signer, message and
library state give byte-identical results, since the embedded code applies
no randomness. -/
theorem sign_deterministic (signer : Signer) (data : Option (List Nat)) (q : List String)
    (r₁ r₂ : Except Status (List Nat) × List String)
    (h1 : Sign signer data q = r₁) (h2 : Sign signer data q = r₂) : r₁ = r₂ :=
  h1.symm.trans h2

/-- Witness for C6 at the small signer. -/
theorem sign_deterministic_witness :
    Sign smallSigner (some [104, 105]) [] = Sign smallSigner (some [104, 105]) [] :=
  sign_deterministic smallSigner (some [104, 105]) [] _ _ rfl rfl

/-- C7: a null message is handled exactly like the empty message, and when
the PKCS1 encoding fits the modulus the call succeeds, so an empty input is
never an error by itself. -/
theorem sign_null_eq_empty (signer : Signer) (q : List String)
    (hfit : (digestInfoBytes signer.sigHash.nid).length + mdSize signer.sigHash.nid + 11 ≤
      RSA_size signer.privateKey) :
    Sign signer none q = Sign signer (some []) q ∧
    ∃ sig, (Sign signer none q).1 = .ok sig := by
  refine ⟨rfl, ?_⟩
  have hx : RSA_sign signer.sigHash.nid
      (modelDigest signer.sigHash.nid (EnsureNonNull none)) signer.privateKey =
      some (natToBytesPad (RSA_size signer.privateKey)
        (powMod (bytesToNat (pkcs1Encode signer.sigHash.nid
            (modelDigest signer.sigHash.nid (EnsureNonNull none))
            (RSA_size signer.privateKey)))
          signer.privateKey.d signer.privateKey.n)) := by
    unfold RSA_sign
    rw [if_neg (by simp [modelDigest])]
    rw [if_neg (by simp only [List.length_append, List.length_replicate, modelDigest,
      Nat.not_lt]; omega)]
  simp only [Sign, ComputeHash, hx]
  exact ⟨_, rfl⟩

/-- Witness for C7 at the small signer: 63 modulus bytes fit the 51-byte
SHA-256 PKCS1 payload plus 11 padding bytes. -/
theorem sign_null_eq_empty_witness :
    Sign smallSigner none [] = Sign smallSigner (some []) [] ∧
    ∃ sig, (Sign smallSigner none []).1 = .ok sig :=
  sign_null_eq_empty smallSigner [] (by decide)

/-- C8: whenever the signing primitive fails, `Sign` returns the fixed
internal status whose message is the constant text with no library
diagnostic in it, and the library error queue is drained to empty rather
than surfaced. -/
theorem sign_failure_hides_diag (signer : Signer) (data : Option (List Nat)) (q : List String)
    (hfail : RSA_sign signer.sigHash.nid
        (modelDigest signer.sigHash.nid (EnsureNonNull data)) signer.privateKey = none) :
    Sign signer data q = (.error ⟨.INTERNAL, "Signing failed."⟩, []) := by
  simp only [Sign, ComputeHash, hfail]

/-- Witness for C8: a one-byte modulus makes the primitive fail; the stale
diagnostic in the queue is discarded and the fixed message returned. -/
theorem sign_failure_hides_diag_witness :
    Sign tinySigner (some [1, 2, 3]) ["stale diagnostic"] =
      (.error ⟨.INTERNAL, "Signing failed."⟩, []) :=
  sign_failure_hides_diag tinySigner (some [1, 2, 3]) ["stale diagnostic"] (by decide)

/-- If the short-circuit check condition of `New` does not hold, both
checks passed. -/
theorem checks_pass_of_not_fail (a b : Bool) (h : ¬((!a || !b) = true)) :
    a = true ∧ b = true := by
  cases a <;> cases b <;> simp_all

/-- C9: `New` is atomic: on every input it either returns a signer whose
key passed both checks and whose hash handle resolves an approved
selector, or it returns an error and no signer at all. -/
theorem new_atomic (pk : RsaPrivateKey) (params : RsaSsaPkcs1Params) (fips : RsaKey → Bool) :
    (∃ signer, New pk params fips = .ok signer ∧
      RSA_check_key signer.privateKey = true ∧ fips signer.privateKey = true ∧
      approvedHash params.hashType = true ∧
      EvpHash params.hashType = .ok signer.sigHash) ∨
    (∃ st, New pk params fips = .error st) := by
  obtain ⟨ht⟩ := params
  by_cases hh : approvedHash ht
  · obtain ⟨md, hmd⟩ := EvpHash_of_approved ht hh
    rw [New_approved_eq pk ht fips md hmd hh]
    split_ifs with hsz hck
    · right; exact ⟨_, rfl⟩
    · right; exact ⟨_, rfl⟩
    · left
      obtain ⟨ha, hb⟩ := checks_pass_of_not_fail _ _ hck
      exact ⟨⟨keyOfMaterial pk, md⟩, rfl, ha, hb, hh, hmd⟩
  · right
    exact ⟨_, New_not_approved pk ht fips (by simp_all)⟩

/-- C10: the invariant of every signer `New` returns: its key passed the
arithmetic consistency check and the hardened profile check, its hash
handle is the resolved handle of an approved selector, and its key is
exactly the one assembled from the material.  `Sign` takes the signer
immutably (the embedding gives it no way to change it), so the invariant
persists across every later call. -/
theorem new_signer_invariant (pk : RsaPrivateKey) (params : RsaSsaPkcs1Params)
    (fips : RsaKey → Bool) (signer : Signer) (h : New pk params fips = .ok signer) :
    RSA_check_key signer.privateKey = true ∧ fips signer.privateKey = true ∧
    approvedHash params.hashType = true ∧
    EvpHash params.hashType = .ok signer.sigHash ∧
    signer.privateKey = keyOfMaterial pk := by
  obtain ⟨ht⟩ := params
  by_cases hh : approvedHash ht
  · obtain ⟨md, hmd⟩ := EvpHash_of_approved ht hh
    rw [New_approved_eq pk ht fips md hmd hh] at h
    by_cases hsz : BN_num_bits (bytesToNat pk.n) < 2048
    · rw [if_pos hsz] at h
      exact absurd h (by simp)
    · rw [if_neg hsz] at h
      by_cases hck : (!RSA_check_key (keyOfMaterial pk) || !fips (keyOfMaterial pk)) = true
      · rw [if_pos hck] at h
        exact absurd h (by simp)
      · rw [if_neg hck] at h
        simp only [Except.ok.injEq] at h
        subst h
        obtain ⟨ha, hb⟩ := checks_pass_of_not_fail _ _ hck
        exact ⟨ha, hb, hh, hmd, rfl⟩
  · rw [New_not_approved pk ht fips (by simp_all)] at h
    exact absurd h (by simp)

/-- Witness for C10: the consistent 2125-bit key with SHA-256 yields a
signer carrying exactly that key and handle, with both checks passed. -/
theorem new_signer_invariant_witness :
    RSA_check_key bigSigner.privateKey = true ∧ fipsAll bigSigner.privateKey = true ∧
    approvedHash HashType.SHA256 = true ∧
    EvpHash HashType.SHA256 = .ok bigSigner.sigHash ∧
    bigSigner.privateKey = keyOfMaterial bigMaterial :=
  new_signer_invariant bigMaterial ⟨.SHA256⟩ fipsAll bigSigner (by decide)

end TinkSubtle
